import Mathlib

/-!
Shallow embedding of the response-cache and speech-synthesis decision logic of
the learning-assistant backend (`s3_cache_utils.py`, `polly_utils.py`,
`s3_utils.py`, `hash_utils.py`), together with theorems settling the spec
claims about them.

Modelling conventions:
* Python exceptions are `Except PyErr`; `ValueError(msg)` becomes
  `PyErr.valueError msg`, service/client failures become `PyErr.clientError`.
* The S3 bucket is a single `S3State`: an association list of objects plus a
  `reachable` flag; when `reachable = false` every S3 API call
  (`head_object`, `get_object`, `put_object`) raises, which models an
  unreachable store.
* JSON documents are abstracted to `String` (the code never inspects them;
  `json.loads ∘ json.dumps` is the identity on this abstraction).
* The Polly service is a `PollyEnv` (voice catalogue, the audio stream a
  synchronous call would return, the task id an asynchronous task would get).
  Every Polly API call made is recorded in a `List PollyCall` trace, so that
  "no synthesis call is attempted" is a statement about the trace.
-/

/-- A Python exception, as far as this code distinguishes them. -/
inductive PyErr where
  | valueError (msg : String)
  | clientError (msg : String)
deriving DecidableEq, Repr

/-- The S3 bucket: stored objects (key ↦ body) and whether the store is
reachable. An unreachable store makes every S3 API call raise. -/
structure S3State where
  objects : List (String × String)
  reachable : Bool
deriving DecidableEq, Repr

/-- `s3.head_object(Bucket=…, Key=key)`: succeeds iff the store is reachable
and the key is present; otherwise raises a client error (404 when absent). -/
def head_object (st : S3State) (key : String) : Except PyErr Unit :=
  if st.reachable then
    if (st.objects.lookup key).isSome then Except.ok ()
    else Except.error (PyErr.clientError "404 Not Found")
  else Except.error (PyErr.clientError "ServiceUnavailable")

/-- `s3.get_object(...)['Body'].read().decode('utf-8')`: the stored body. -/
def get_object (st : S3State) (key : String) : Except PyErr String :=
  if st.reachable then
    match st.objects.lookup key with
    | some v => Except.ok v
    | none => Except.error (PyErr.clientError "NoSuchKey")
  else Except.error (PyErr.clientError "ServiceUnavailable")

/-- `s3.put_object(Bucket=…, Key=key, Body=body)`: prepends the binding (an
assoc-list update; `List.lookup` sees the newest write). -/
def put_object (st : S3State) (key body : String) : Except PyErr S3State :=
  if st.reachable then
    Except.ok { st with objects := (key, body) :: st.objects }
  else Except.error (PyErr.clientError "ServiceUnavailable")

/-- `s3_utils.check_s3_file_exists`: tries `head_object`; returns `True` on
success and `False` on ANY exception (the `except Exception` clause swallows
unreachable-store errors as well as 404s). -/
def check_s3_file_exists (st : S3State) (file_key : String) : Bool :=
  match head_object st file_key with
  | Except.ok _ => true
  | Except.error _ => false

/-- `s3_utils.get_json_from_s3`: `head_object` then `get_object` then
`json.loads`; every exception is re-raised. -/
def get_json_from_s3 (st : S3State) (file_key : String) : Except PyErr String := do
  let _ ← head_object st file_key
  get_object st file_key

/-- `s3_utils.write_json_to_s3`: `json.dumps` then `put_object`, returning the
key; every exception is re-raised. -/
def write_json_to_s3 (st : S3State) (file_key body : String) :
    Except PyErr (String × S3State) :=
  match put_object st file_key body with
  | Except.ok st2 => Except.ok (file_key, st2)
  | Except.error e => Except.error e

/-- Outcome of one run of `get_or_generate_bedrock_response`: the returned
value (or raised exception), the store afterwards, and call counters for the
generation function and for successful cache writes. -/
structure CacheRun where
  result : Except PyErr (String × Bool)
  store : S3State
  genCalls : Nat
  writeCalls : Nat
deriving Repr

/-- `s3_cache_utils.get_or_generate_bedrock_response`. The caller-supplied
`call_bedrock_function(*args, **kwargs)` is modelled by the outcome `gen` it
would produce on this call; `genCalls` counts its invocations. -/
def get_or_generate_bedrock_response (st : S3State) (file_key : String)
    (gen : Except PyErr String) : CacheRun :=
  let file_exists := check_s3_file_exists st file_key
  if file_exists then
    match get_json_from_s3 st file_key with
    | Except.ok v => ⟨Except.ok (v, file_exists), st, 0, 0⟩
    | Except.error e => ⟨Except.error e, st, 0, 0⟩
  else
    match gen with
    | Except.error e => ⟨Except.error e, st, 1, 0⟩
    | Except.ok v =>
      match write_json_to_s3 st file_key v with
      | Except.ok (_, st2) => ⟨Except.ok (v, file_exists), st2, 1, 1⟩
      | Except.error e => ⟨Except.error e, st, 1, 0⟩

/-- One entry of Polly's voice catalogue, as `describe_voices` returns it. -/
structure Voice where
  id : String
  languageCode : String
  supportedEngines : List String
deriving DecidableEq, Repr

/-- The Polly service: its voice catalogue, the `AudioStream` a synchronous
`synthesize_speech` response would carry (`none` models a response without
audio data), and the `TaskId` a `start_speech_synthesis_task` response
would carry. -/
structure PollyEnv where
  voices : List Voice
  syncAudio : Option String
  taskId : String
deriving DecidableEq, Repr

/-- A call made to the Polly API, recorded in order. -/
inductive PollyCall where
  | describeVoicesAll
  | describeVoicesLang (languageCode : String)
  | synthesizeSync
  | startSynthesisTask
deriving DecidableEq, Repr

/-- The value `synthesize_speech` returns: either `{'audio_key': …}` from the
synchronous path or `{'task_id': …}` from the asynchronous path. -/
inductive SynthResult where
  | audio_key (k : String)
  | task_id (t : String)
deriving DecidableEq, Repr

/-- `polly_utils.SYNTHESIZE_MAX_LENGTH`. -/
def SYNTHESIZE_MAX_LENGTH : Nat := 3000

/-- `polly_utils.ASYNC_SYNTHESIZE_MAX_LENGTH`. -/
def ASYNC_SYNTHESIZE_MAX_LENGTH : Nat := 180000

/-- `polly_utils.get_default_voice_for_language`:
`polly.describe_voices(LanguageCode=language_code)` returns the voices of
that language; the first one is the default, and an empty list raises
`ValueError`. -/
def get_default_voice_for_language (env : PollyEnv) (language_code : String) :
    Except PyErr Voice :=
  match env.voices.filter (fun v => v.languageCode = language_code) with
  | v :: _ => Except.ok v
  | [] => Except.error (PyErr.valueError
      s!"No voices available for language: {language_code}")

/-- `polly_utils.process_audio_stream_and_upload_to_s3`: accumulates the whole
stream in memory, then uploads it with one `put_object`. -/
def process_audio_stream_and_upload_to_s3 (st : S3State)
    (file_key audio_stream : String) : Except PyErr S3State :=
  put_object st file_key audio_stream

/-- `polly_utils.synthesize_speech(bucket_name, file_key, text, output_format,
language_code, async_processing)`. Returns the result (or raised exception),
the S3 store afterwards, and the trace of Polly API calls made. -/
def synthesize_speech (env : PollyEnv) (st : S3State)
    (file_key text _output_format language_code : String)
    (async_processing : Bool) :
    Except PyErr SynthResult × S3State × List PollyCall :=
  -- polly.describe_voices()['Voices'] and the set of their language codes
  let polly_supported_languages := env.voices.map (fun v => v.languageCode)
  if language_code ∈ polly_supported_languages then
    match get_default_voice_for_language env language_code with
    | Except.error e =>
        (Except.error e, st,
          [PollyCall.describeVoicesAll, PollyCall.describeVoicesLang language_code])
    | Except.ok _voice =>
      let calls := [PollyCall.describeVoicesAll,
                    PollyCall.describeVoicesLang language_code]
      let text_length := text.length
      if text_length < SYNTHESIZE_MAX_LENGTH ∧ async_processing = false then
        match env.syncAudio with
        | some audio_stream =>
          match process_audio_stream_and_upload_to_s3 st file_key audio_stream with
          | Except.ok st2 =>
              (Except.ok (SynthResult.audio_key file_key), st2,
                calls ++ [PollyCall.synthesizeSync])
          | Except.error e =>
              (Except.error e, st, calls ++ [PollyCall.synthesizeSync])
        | none =>
            (Except.error
              (PyErr.valueError "Error: Response does not contain audio data."),
              st, calls ++ [PollyCall.synthesizeSync])
      else if text_length < ASYNC_SYNTHESIZE_MAX_LENGTH then
        -- the task writes its own output later, under the prefix `file_key`;
        -- this call itself changes nothing in the store
        (Except.ok (SynthResult.task_id env.taskId), st,
          calls ++ [PollyCall.startSynthesisTask])
      else
        (Except.error
          (PyErr.valueError "Error: Text is too long for polly synthesis task."),
          st, calls)
  else
    (Except.error (PyErr.valueError
        s!"Language Code {language_code} not supported by Amazon Polly."),
      st, [PollyCall.describeVoicesAll])

/-- `s3_cache_utils.get_or_synthesize_speech`: short-circuit on an existing
audio key, otherwise delegate to `synthesize_speech`. -/
def get_or_synthesize_speech (env : PollyEnv) (st : S3State)
    (file_key text_to_synthesize output_format language_code : String)
    (async_processing : Bool) :
    Except PyErr SynthResult × S3State × List PollyCall :=
  if check_s3_file_exists st file_key then
    (Except.ok (SynthResult.audio_key file_key), st, [])
  else
    synthesize_speech env st file_key text_to_synthesize output_format
      language_code async_processing

/-- `polly_utils.get_synthesis_file_key`: the f-string
`f"{file_key}{task_id}.{output_format}"`. -/
def get_synthesis_file_key (file_key task_id output_format : String) : String :=
  file_key ++ task_id ++ "." ++ output_format

/-- `pat.isPrefix of s`, spelled out: does `s` start with `pat`? -/
def listStartsWith : List Char → List Char → Bool
  | [], _ => true
  | _ :: _, [] => false
  | p :: ps, s :: ss => p = s && listStartsWith ps ss

/-- Python `hay.find(pat)` for strings as `List Char`: the first index where
`pat` occurs, `none` for Python's `-1`. -/
def pyFind (pat : List Char) : List Char → Option Nat
  | [] => if listStartsWith pat [] then some 0 else none
  | c :: rest =>
    if listStartsWith pat (c :: rest) then some 0
    else (pyFind pat rest).map (fun i => i + 1)

/-- Python `l.rfind(c)` for a single character: the last index where `c`
occurs, `none` for Python's `-1`. -/
def pyRfind : List Char → Char → Option Nat
  | [], _ => none
  | x :: xs, c =>
    match pyRfind xs c with
    | some i => some (i + 1)
    | none => if x = c then some 0 else none

/-- Python `s.rstrip(c)`: remove trailing copies of `c`. -/
def pyRstrip (l : List Char) (c : Char) : List Char :=
  (l.reverse.dropWhile (fun x => x = c)).reverse

/-- The ASCII whitespace Python `str.strip()` removes. -/
def isPySpace (c : Char) : Bool :=
  c = ' ' || c = Char.ofNat 9 || c = Char.ofNat 10 || c = Char.ofNat 13 ||
  c = Char.ofNat 11 || c = Char.ofNat 12

/-- Python `s.strip()`: remove leading and trailing whitespace. -/
def pyStrip (l : List Char) : List Char :=
  ((l.dropWhile isPySpace).reverse.dropWhile isPySpace).reverse

/-- `hash_utils.ALLOWED_CHARS_HASH`. -/
def ALLOWED_CHARS_HASH : List Char :=
  "abcdefghijklmnopqrstuvwxyzABCDEFGHIJKLMNOPQRSTUVWXYZ0123456789._-".toList

/-- `hash_utils.deterministic_hash`. The external library composition
`base64.urlsafe_b64encode(hashlib.sha256(bytes).digest()).decode()` is not
repository code; it is the parameter `sha256_b64`, so the theorems hold for
every behaviour of those libraries. The repository code is: truncate at the
first occurrence of `"videos"`, hash-encode, strip `=` padding, filter to the
allowed alphabet. -/
def deterministic_hash (sha256_b64 : List Char → List Char)
    (file_key : List Char) : List Char :=
  let result :=
    match pyFind ("videos".toList) file_key with
    | some videos_index => file_key.drop videos_index
    | none => file_key
  let hash_str := sha256_b64 result
  let stripped := pyRstrip hash_str '='
  stripped.filter (fun c => ALLOWED_CHARS_HASH.contains c)

/-- The split index one loop iteration of `split_text_into_chunks` uses:
`text[:max_length].rfind('.') + 1`, replaced by `max_length` when it is 0
(no period found). -/
def splitIndexOf (text : List Char) (max_length : Nat) : Nat :=
  match pyRfind (text.take max_length) (Char.ofNat 46) with
  | some i => i + 1
  | none => max_length

/-- `polly_utils.split_text_into_chunks`, with explicit fuel standing for the
iterations of the `while len(text) > max_length` loop: `none` means the loop
has not finished within `fuel` iterations (so `∀ fuel, … = none` is
non-termination of the Python loop). -/
def split_text_into_chunks : Nat → List Char → Nat → Option (List (List Char))
  | 0, _, _ => none
  | fuel + 1, text, max_length =>
    if text.length > max_length then
      let split_index := splitIndexOf text max_length
      match split_text_into_chunks fuel (text.drop split_index) max_length with
      | some chunks => some (pyStrip (text.take split_index) :: chunks)
      | none => none
    else
      some [pyStrip text]

/-- C10: `get_synthesis_file_key(file_key, task_id, output_format)` is the
concatenation `file_key + task_id + "." + output_format`; it is strictly
longer than `file_key`, hence never equal to it, so the asynchronous output
key always differs from the `audioKey` the check-existing step inspects. -/
theorem C10_synthesis_key_differs (file_key task_id output_format : String) :
    get_synthesis_file_key file_key task_id output_format =
      file_key ++ task_id ++ "." ++ output_format ∧
    file_key.length <
      (get_synthesis_file_key file_key task_id output_format).length ∧
    get_synthesis_file_key file_key task_id output_format ≠ file_key := by
  have hdot : (".").length = 1 := rfl
  refine ⟨rfl, ?_, ?_⟩
  · simp [get_synthesis_file_key, String.length_append, hdot]
    omega
  · intro h
    have hl : (get_synthesis_file_key file_key task_id output_format).length =
        file_key.length := by rw [h]
    simp [get_synthesis_file_key, String.length_append, hdot] at hl
    omega

/-- C2: for a key present in a reachable store, `get_or_generate_bedrock_response`
never invokes the generation function (0 calls), writes nothing, and returns
the stored value with `wasCached = true`. -/
theorem C2_cache_hit_suppresses_generation (st : S3State) (file_key v : String)
    (gen : Except PyErr String)
    (hreach : st.reachable = true)
    (hpresent : st.objects.lookup file_key = some v) :
    get_or_generate_bedrock_response st file_key gen =
      ⟨Except.ok (v, true), st, 0, 0⟩ := by
  simp [get_or_generate_bedrock_response, check_s3_file_exists, head_object,
    get_json_from_s3, get_object, Bind.bind, Except.bind, hreach, hpresent]

/-- Closed instance of `C2_cache_hit_suppresses_generation`. -/
theorem C2_cache_hit_suppresses_generation_witness :
    (S3State.mk [("k", "v")] true).reachable = true ∧
    (S3State.mk [("k", "v")] true).objects.lookup "k" = some "v" ∧
    get_or_generate_bedrock_response ⟨[("k", "v")], true⟩ "k" (Except.ok "g") =
      ⟨Except.ok ("v", true), ⟨[("k", "v")], true⟩, 0, 0⟩ :=
  ⟨rfl, rfl, C2_cache_hit_suppresses_generation _ "k" "v" _ rfl rfl⟩

/-- C3: for a key absent from a reachable store, when generation succeeds with
`v`, `get_or_generate_bedrock_response` invokes generation exactly once,
writes exactly once, stores `v` at the key, and returns `v` with
`wasCached = false`. -/
theorem C3_cache_miss_persists_once (st : S3State) (file_key v : String)
    (hreach : st.reachable = true)
    (habsent : st.objects.lookup file_key = none) :
    get_or_generate_bedrock_response st file_key (Except.ok v) =
      ⟨Except.ok (v, false),
        { st with objects := (file_key, v) :: st.objects }, 1, 1⟩ ∧
    (get_or_generate_bedrock_response st file_key
        (Except.ok v)).store.objects.lookup file_key = some v := by
  constructor
  · simp [get_or_generate_bedrock_response, check_s3_file_exists, head_object,
      write_json_to_s3, put_object, hreach, habsent]
  · simp [get_or_generate_bedrock_response, check_s3_file_exists, head_object,
      write_json_to_s3, put_object, hreach, habsent]

/-- Closed instance of `C3_cache_miss_persists_once`. -/
theorem C3_cache_miss_persists_once_witness :
    (S3State.mk [] true).reachable = true ∧
    (S3State.mk [] true).objects.lookup "k" = none ∧
    (get_or_generate_bedrock_response ⟨[], true⟩ "k" (Except.ok "g") =
      ⟨Except.ok ("g", false), ⟨[("k", "g")], true⟩, 1, 1⟩ ∧
     (get_or_generate_bedrock_response ⟨[], true⟩ "k"
        (Except.ok "g")).store.objects.lookup "k" = some "g") :=
  ⟨rfl, rfl, C3_cache_miss_persists_once ⟨[], true⟩ "k" "g" rfl rfl⟩

/-- C4: for a key absent from a reachable store, when generation raises, the
exception propagates, nothing is written (store unchanged, 0 writes), and the
store still does not contain the key afterwards. -/
theorem C4_generation_failure_leaves_no_trace (st : S3State) (file_key : String)
    (e : PyErr)
    (hreach : st.reachable = true)
    (habsent : st.objects.lookup file_key = none) :
    get_or_generate_bedrock_response st file_key (Except.error e) =
      ⟨Except.error e, st, 1, 0⟩ ∧
    (get_or_generate_bedrock_response st file_key
        (Except.error e)).store.objects.lookup file_key = none := by
  constructor
  · simp [get_or_generate_bedrock_response, check_s3_file_exists, head_object,
      hreach, habsent]
  · simp [get_or_generate_bedrock_response, check_s3_file_exists, head_object,
      hreach, habsent]

/-- Closed instance of `C4_generation_failure_leaves_no_trace`. -/
theorem C4_generation_failure_leaves_no_trace_witness :
    (S3State.mk [] true).reachable = true ∧
    (S3State.mk [] true).objects.lookup "k" = none ∧
    (get_or_generate_bedrock_response ⟨[], true⟩ "k"
        (Except.error (PyErr.valueError "boom")) =
      ⟨Except.error (PyErr.valueError "boom"), ⟨[], true⟩, 1, 0⟩ ∧
     (get_or_generate_bedrock_response ⟨[], true⟩ "k"
        (Except.error (PyErr.valueError "boom"))).store.objects.lookup "k" =
       none) :=
  ⟨rfl, rfl,
    C4_generation_failure_leaves_no_trace ⟨[], true⟩ "k"
      (PyErr.valueError "boom") rfl rfl⟩

/-- C5 fails on the code: with the store unreachable and a valid cached value
present at the key, the failed `head_object` of `check_s3_file_exists` is
swallowed (returned as `False`), so generation IS invoked — `genCalls = 1` —
while a valid cached value exists, contrary to the claim that the existence
check aborts the whole operation without invoking generation. -/
theorem C5_unreachable_check_swallowed_code_bug :
    (S3State.mk [("k", "cached")] false).objects.lookup "k" = some "cached" ∧
    (get_or_generate_bedrock_response ⟨[("k", "cached")], false⟩ "k"
        (Except.ok "fresh")).genCalls = 1 ∧
    (get_or_generate_bedrock_response ⟨[("k", "cached")], false⟩ "k"
        (Except.ok "fresh")).result =
      Except.error (PyErr.clientError "ServiceUnavailable") :=
  ⟨rfl, rfl, rfl⟩

/-- C6: when the audio key is already present in a reachable store,
`get_or_synthesize_speech` returns `{'audio_key': file_key}` with an empty
Polly call trace (no language lookup, no voice lookup, no synthesis) and an
unchanged store. -/
theorem C6_existing_audio_short_circuits (env : PollyEnv) (st : S3State)
    (file_key text output_format language_code : String)
    (async_processing : Bool)
    (hreach : st.reachable = true)
    (hpresent : (st.objects.lookup file_key).isSome = true) :
    get_or_synthesize_speech env st file_key text output_format language_code
        async_processing =
      (Except.ok (SynthResult.audio_key file_key), st, []) := by
  simp [get_or_synthesize_speech, check_s3_file_exists, head_object, hreach,
    hpresent]

/-- Closed instance of `C6_existing_audio_short_circuits`. -/
theorem C6_existing_audio_short_circuits_witness :
    (S3State.mk [("ak", "mp3bytes")] true).reachable = true ∧
    ((S3State.mk [("ak", "mp3bytes")] true).objects.lookup "ak").isSome = true ∧
    get_or_synthesize_speech ⟨[], none, "t"⟩ ⟨[("ak", "mp3bytes")], true⟩ "ak"
        "hello" "mp3" "en-US" false =
      (Except.ok (SynthResult.audio_key "ak"), ⟨[("ak", "mp3bytes")], true⟩, []) :=
  ⟨rfl, rfl,
    C6_existing_audio_short_circuits ⟨[], none, "t"⟩ ⟨[("ak", "mp3bytes")], true⟩
      "ak" "hello" "mp3" "en-US" false rfl rfl⟩

/-- C7: for any text, a language code outside the voice catalogue's language
set makes `synthesize_speech` raise the unsupported-language `ValueError`
after only the supported-language query: no voice lookup, no synchronous or
asynchronous synthesis call, store unchanged. -/
theorem C7_unsupported_language_rejected (env : PollyEnv) (st : S3State)
    (file_key text output_format language_code : String)
    (async_processing : Bool)
    (hunsupported : language_code ∉ env.voices.map (fun v => v.languageCode)) :
    synthesize_speech env st file_key text output_format language_code
        async_processing =
      (Except.error (PyErr.valueError
          s!"Language Code {language_code} not supported by Amazon Polly."),
        st, [PollyCall.describeVoicesAll]) := by
  simp [synthesize_speech, hunsupported]

/-- Closed instance of `C7_unsupported_language_rejected`. -/
theorem C7_unsupported_language_rejected_witness :
    ("xx-XX" ∉
      (PollyEnv.mk [⟨"Joanna", "en-US", ["neural"]⟩] (some "AUDIO") "t").voices.map
        (fun v => v.languageCode)) ∧
    synthesize_speech ⟨[⟨"Joanna", "en-US", ["neural"]⟩], some "AUDIO", "t"⟩
        ⟨[], true⟩ "ak" "hello" "mp3" "xx-XX" false =
      (Except.error (PyErr.valueError
          "Language Code xx-XX not supported by Amazon Polly."),
        ⟨[], true⟩, [PollyCall.describeVoicesAll]) :=
  ⟨by decide,
    C7_unsupported_language_rejected
      ⟨[⟨"Joanna", "en-US", ["neural"]⟩], some "AUDIO", "t"⟩ ⟨[], true⟩
      "ak" "hello" "mp3" "xx-XX" false (by decide)⟩

/-- When the language code is in the supported set, the voice filter is
nonempty, so `get_default_voice_for_language` returns its head. -/
lemma voice_filter_cons (env : PollyEnv) (language_code : String)
    (hsupported : language_code ∈ env.voices.map (fun v => v.languageCode)) :
    ∃ v rest,
      env.voices.filter (fun v => v.languageCode = language_code) = v :: rest := by
  obtain ⟨w, hw, hlc⟩ := List.mem_map.mp hsupported
  have hmem : w ∈ env.voices.filter (fun v => v.languageCode = language_code) := by
    rw [List.mem_filter]
    exact ⟨hw, by simp [hlc]⟩
  obtain ⟨v, rest, hcons⟩ :=
    List.exists_cons_of_ne_nil (List.ne_nil_of_mem hmem)
  exact ⟨v, rest, hcons⟩

/-- C1: with a supported language code (hence at least one voice), the mode
selection of `synthesize_speech` is: length `SYNTHESIZE_MAX_LENGTH - 1` and
`async_processing = false` take the synchronous path and return
`{'audio_key': file_key}`; length `SYNTHESIZE_MAX_LENGTH`, or
`async_processing = true`, with length below `ASYNC_SYNTHESIZE_MAX_LENGTH`,
take the asynchronous path and return `{'task_id': …}`; length above
`ASYNC_SYNTHESIZE_MAX_LENGTH` raises the text-too-long `ValueError`. -/
theorem C1_mode_selection_boundary (env : PollyEnv) (st : S3State)
    (file_key text output_format language_code : String)
    (async_processing : Bool)
    (hsupported : language_code ∈ env.voices.map (fun v => v.languageCode)) :
    (text.length = SYNTHESIZE_MAX_LENGTH - 1 → async_processing = false →
      st.reachable = true → env.syncAudio.isSome = true →
      (synthesize_speech env st file_key text output_format language_code
          async_processing).1 = Except.ok (SynthResult.audio_key file_key) ∧
      (synthesize_speech env st file_key text output_format language_code
          async_processing).2.2 =
        [PollyCall.describeVoicesAll, PollyCall.describeVoicesLang language_code,
         PollyCall.synthesizeSync]) ∧
    ((text.length = SYNTHESIZE_MAX_LENGTH ∨ async_processing = true) →
      text.length < ASYNC_SYNTHESIZE_MAX_LENGTH →
      (synthesize_speech env st file_key text output_format language_code
          async_processing).1 = Except.ok (SynthResult.task_id env.taskId) ∧
      (synthesize_speech env st file_key text output_format language_code
          async_processing).2.2 =
        [PollyCall.describeVoicesAll, PollyCall.describeVoicesLang language_code,
         PollyCall.startSynthesisTask]) ∧
    (ASYNC_SYNTHESIZE_MAX_LENGTH < text.length →
      (synthesize_speech env st file_key text output_format language_code
          async_processing).1 =
        Except.error
          (PyErr.valueError "Error: Text is too long for polly synthesis task.")) := by
  obtain ⟨v, rest, hcons⟩ := voice_filter_cons env language_code hsupported
  refine ⟨?_, ?_, ?_⟩
  · intro hlen hasync hreach hsync
    obtain ⟨audio, haudio⟩ := Option.isSome_iff_exists.mp hsync
    have hcond : text.length < SYNTHESIZE_MAX_LENGTH ∧ async_processing = false := by
      constructor
      · rw [hlen]; simp [SYNTHESIZE_MAX_LENGTH]
      · exact hasync
    constructor
    · simp [synthesize_speech, get_default_voice_for_language, hcons, hsupported,
        hcond, haudio, process_audio_stream_and_upload_to_s3, put_object, hreach]
    · simp [synthesize_speech, get_default_voice_for_language, hcons, hsupported,
        hcond, haudio, process_audio_stream_and_upload_to_s3, put_object, hreach]
  · intro hforce hbelow
    have hcond : ¬(text.length < SYNTHESIZE_MAX_LENGTH ∧ async_processing = false) := by
      rcases hforce with hlen | hasync
      · intro h
        rw [hlen] at h
        simp [SYNTHESIZE_MAX_LENGTH] at h
      · intro h
        rw [hasync] at h
        simp at h
    constructor
    · simp [synthesize_speech, get_default_voice_for_language, hcons, hsupported,
        hcond, hbelow]
    · simp [synthesize_speech, get_default_voice_for_language, hcons, hsupported,
        hcond, hbelow]
  · intro habove
    have hcond : ¬(text.length < SYNTHESIZE_MAX_LENGTH ∧ async_processing = false) := by
      intro h
      have := h.1
      simp [SYNTHESIZE_MAX_LENGTH] at this
      simp [ASYNC_SYNTHESIZE_MAX_LENGTH] at habove
      omega
    have hcond2 : ¬(text.length < ASYNC_SYNTHESIZE_MAX_LENGTH) := by omega
    simp [synthesize_speech, get_default_voice_for_language, hcons, hsupported,
      hcond, hcond2]

/-- A one-voice Polly environment used to instantiate the mode-selection
theorem. -/
def c1Env : PollyEnv := ⟨[⟨"Joanna", "en-US", ["neural"]⟩], some "AUDIO", "t1"⟩

/-- An empty, reachable store used to instantiate the mode-selection
theorem. -/
def c1Store : S3State := ⟨[], true⟩

/-- 2999 characters: `SYNTHESIZE_MAX_LENGTH - 1`. -/
def c1TextSync : String := String.mk (List.replicate 2999 'a')

/-- 3000 characters: exactly `SYNTHESIZE_MAX_LENGTH`. -/
def c1TextAsync : String := String.mk (List.replicate 3000 'a')

/-- 180001 characters: one more than `ASYNC_SYNTHESIZE_MAX_LENGTH`. -/
def c1TextLong : String := String.mk (List.replicate 180001 'a')

lemma c1TextSync_length : c1TextSync.length = 2999 := by
  have h : c1TextSync.length = (List.replicate 2999 'a').length := rfl
  rw [h, List.length_replicate]

lemma c1TextAsync_length : c1TextAsync.length = 3000 := by
  have h : c1TextAsync.length = (List.replicate 3000 'a').length := rfl
  rw [h, List.length_replicate]

lemma c1TextLong_length : c1TextLong.length = 180001 := by
  have h : c1TextLong.length = (List.replicate 180001 'a').length := rfl
  rw [h, List.length_replicate]

/-- Closed instance of `C1_mode_selection_boundary` at all three boundary
lengths. -/
theorem C1_mode_selection_boundary_witness :
    ("en-US" ∈ c1Env.voices.map (fun v => v.languageCode)) ∧
    c1TextSync.length = SYNTHESIZE_MAX_LENGTH - 1 ∧
    c1TextAsync.length = SYNTHESIZE_MAX_LENGTH ∧
    ASYNC_SYNTHESIZE_MAX_LENGTH < c1TextLong.length ∧
    (synthesize_speech c1Env c1Store "ak" c1TextSync "mp3" "en-US" false).1 =
      Except.ok (SynthResult.audio_key "ak") ∧
    (synthesize_speech c1Env c1Store "ak" c1TextAsync "mp3" "en-US" false).1 =
      Except.ok (SynthResult.task_id "t1") ∧
    (synthesize_speech c1Env c1Store "ak" c1TextLong "mp3" "en-US" false).1 =
      Except.error
        (PyErr.valueError "Error: Text is too long for polly synthesis task.") := by
  have hs : ("en-US" ∈ c1Env.voices.map (fun v => v.languageCode)) := by decide
  have ha :=
    (C1_mode_selection_boundary c1Env c1Store "ak" c1TextSync "mp3" "en-US"
      false hs).1 (by rw [c1TextSync_length]; decide) rfl rfl rfl
  have hb :=
    (C1_mode_selection_boundary c1Env c1Store "ak" c1TextAsync "mp3" "en-US"
      false hs).2.1 (Or.inl (by rw [c1TextAsync_length]; decide))
      (by rw [c1TextAsync_length]; decide)
  have hc :=
    (C1_mode_selection_boundary c1Env c1Store "ak" c1TextLong "mp3" "en-US"
      false hs).2.2 (by rw [c1TextLong_length]; decide)
  exact ⟨hs, by rw [c1TextSync_length]; decide, by rw [c1TextAsync_length]; decide,
    by rw [c1TextLong_length]; decide, ha.1, hb.1, hc⟩

/-- C8: every character of the `deterministic_hash` output lies in the allowed
alphabet `[A-Za-z0-9._-]`, for every behaviour of the external hash/base64
libraries and every input key. -/
theorem C8_alphabet_invariant (sha256_b64 : List Char → List Char)
    (file_key : List Char) (c : Char)
    (hc : c ∈ deterministic_hash sha256_b64 file_key) :
    c ∈ ALLOWED_CHARS_HASH := by
  unfold deterministic_hash at hc
  simp only [List.mem_filter] at hc
  exact List.elem_iff.mp hc.2

/-- Closed instance of `C8_alphabet_invariant`. -/
theorem C8_alphabet_invariant_witness :
    ('x' ∈ deterministic_hash (fun l => l) ("x=".toList)) ∧
    'x' ∈ ALLOWED_CHARS_HASH :=
  ⟨by decide, C8_alphabet_invariant (fun l => l) ("x=".toList) 'x' (by decide)⟩

/-- On `"a"` with `max_length = 0` the split index is 0, the text never
shrinks, and the loop never finishes, whatever the iteration bound. -/
lemma split_text_stuck_at_zero (fuel : Nat) :
    split_text_into_chunks fuel (['a']) 0 = none := by
  induction fuel with
  | zero => rfl
  | succ n ih =>
    simp [split_text_into_chunks, splitIndexOf, pyRfind, ih]

/-- C9 fails as stated: the chunker does not terminate for every `maxLength` —
on text `"a"` with `maxLength = 0` no iteration bound ever yields a result. -/
theorem C9_counterexample_nontermination :
    ¬ ∃ fuel, (split_text_into_chunks fuel (['a']) 0).isSome = true := by
  rintro ⟨fuel, h⟩
  rw [split_text_stuck_at_zero fuel] at h
  simp at h

/-- Python `rfind` returns an index inside the list. -/
lemma pyRfind_lt_length (l : List Char) (c : Char) (i : Nat)
    (h : pyRfind l c = some i) : i < l.length := by
  induction l generalizing i with
  | nil => simp [pyRfind] at h
  | cons x xs ih =>
    simp only [pyRfind] at h
    cases hr : pyRfind xs c with
    | some j =>
      rw [hr] at h
      have hij : i = j + 1 := by
        cases h
        rfl
      have := ih j hr
      simp [hij, List.length_cons]
      omega
    | none =>
      rw [hr] at h
      by_cases hx : x = c
      · rw [if_pos hx] at h
        have : i = 0 := by
          cases h
          rfl
        simp [this]
      · rw [if_neg hx] at h
        cases h

/-- With `max_length ≥ 1` each loop iteration consumes at least one
character. -/
lemma splitIndexOf_pos (text : List Char) (max_length : Nat)
    (h : 1 ≤ max_length) : 1 ≤ splitIndexOf text max_length := by
  unfold splitIndexOf
  split
  · omega
  · exact h

/-- The split index never exceeds `max_length`. -/
lemma splitIndexOf_le (text : List Char) (max_length : Nat) :
    splitIndexOf text max_length ≤ max_length := by
  unfold splitIndexOf
  split
  · rename_i i hr
    have h1 := pyRfind_lt_length _ _ _ hr
    have h2 : (text.take max_length).length ≤ max_length :=
      List.length_take_le _ _
    omega
  · exact Nat.le_refl _

/-- `dropWhile` never lengthens a list. -/
lemma length_dropWhile_le_self (p : Char → Bool) (l : List Char) :
    (l.dropWhile p).length ≤ l.length := by
  induction l with
  | nil => simp [List.dropWhile]
  | cons x xs ih =>
    by_cases h : p x
    · rw [List.dropWhile_cons, if_pos h]
      simp only [List.length_cons]
      omega
    · rw [List.dropWhile_cons, if_neg h]

/-- Stripping whitespace never lengthens a string. -/
lemma pyStrip_length_le (l : List Char) : (pyStrip l).length ≤ l.length := by
  unfold pyStrip
  calc ((l.dropWhile isPySpace).reverse.dropWhile isPySpace).reverse.length
      = ((l.dropWhile isPySpace).reverse.dropWhile isPySpace).length := by
        rw [List.length_reverse]
    _ ≤ (l.dropWhile isPySpace).reverse.length :=
        length_dropWhile_le_self _ _
    _ = (l.dropWhile isPySpace).length := by rw [List.length_reverse]
    _ ≤ l.length := length_dropWhile_le_self _ _

/-- For `max_length ≥ 1`, `text.length + 1` iterations always suffice, every
chunk is at most `max_length` long, and the last chunk is the strip of the
text remaining after the earlier splits. -/
lemma split_text_into_chunks_spec (fuel : Nat) :
    ∀ (text : List Char) (max_length : Nat), 1 ≤ max_length →
      text.length < fuel →
      ∃ chunks,
        split_text_into_chunks fuel text max_length = some chunks ∧
        chunks ≠ [] ∧
        (∀ c ∈ chunks, c.length ≤ max_length) ∧
        ∃ k, k ≤ text.length ∧ (text.drop k).length ≤ max_length ∧
          chunks.getLast? = some (pyStrip (text.drop k)) := by
  induction fuel with
  | zero =>
    intro text ml hml hlen
    exact absurd hlen (by omega)
  | succ n ih =>
    intro text ml hml hlen
    by_cases hgt : ml < text.length
    · have hsi1 := splitIndexOf_pos text ml hml
      have hsile := splitIndexOf_le text ml
      have hdrop : (text.drop (splitIndexOf text ml)).length < n := by
        rw [List.length_drop]
        omega
      obtain ⟨chunks, hrun, hne, hall, k, hk, hkrem, hlast⟩ :=
        ih (text.drop (splitIndexOf text ml)) ml hml hdrop
      obtain ⟨c0, ctail, rfl⟩ := List.exists_cons_of_ne_nil hne
      have hstep :
          split_text_into_chunks (n + 1) text ml =
            match split_text_into_chunks n (text.drop (splitIndexOf text ml)) ml with
            | some chunks => some (pyStrip (text.take (splitIndexOf text ml)) :: chunks)
            | none => none := by
        simp only [split_text_into_chunks]
        rw [if_pos hgt]
      refine ⟨pyStrip (text.take (splitIndexOf text ml)) :: c0 :: ctail,
        ?_, by simp, ?_, ?_⟩
      · rw [hstep, hrun]
      · intro c hc
        rcases List.mem_cons.mp hc with rfl | hmem
        · have h1 := pyStrip_length_le (text.take (splitIndexOf text ml))
          have h2 : (text.take (splitIndexOf text ml)).length ≤
              splitIndexOf text ml := List.length_take_le _ _
          omega
        · exact hall c hmem
      · refine ⟨splitIndexOf text ml + k, ?_, ?_, ?_⟩
        · rw [List.length_drop] at hk
          omega
        · rw [← List.drop_drop]
          exact hkrem
        · rw [List.getLast?_cons_cons, hlast, List.drop_drop]
    · have hle : text.length ≤ ml := by omega
      have hstep : split_text_into_chunks (n + 1) text ml = some [pyStrip text] := by
        simp only [split_text_into_chunks]
        rw [if_neg hgt]
      refine ⟨[pyStrip text], hstep, by simp, ?_, 0, by omega, ?_, ?_⟩
      · intro c hc
        simp only [List.mem_singleton] at hc
        subst hc
        have := pyStrip_length_le text
        omega
      · simpa using hle
      · simp

/-- C9 amended: for every text and every `maxLength ≥ 1`,
`split_text_into_chunks` terminates (within `text.length + 1` loop
iterations) and produces a finite nonempty sequence of chunks, each of length
at most `maxLength`, whose final chunk is the (stripped) remainder of the
text after the earlier splits. -/
theorem C9_amended_chunks_terminate_and_fit (text : List Char)
    (max_length : Nat) (hml : 1 ≤ max_length) :
    ∃ chunks,
      split_text_into_chunks (text.length + 1) text max_length = some chunks ∧
      chunks ≠ [] ∧
      (∀ c ∈ chunks, c.length ≤ max_length) ∧
      ∃ k, k ≤ text.length ∧ (text.drop k).length ≤ max_length ∧
        chunks.getLast? = some (pyStrip (text.drop k)) :=
  split_text_into_chunks_spec (text.length + 1) text max_length hml
    (Nat.lt_succ_self _)

/-- Closed instance of `C9_amended_chunks_terminate_and_fit`. -/
theorem C9_amended_chunks_terminate_and_fit_witness :
    1 ≤ 2 ∧
    (∃ chunks,
      split_text_into_chunks (("ab.cd".toList).length + 1) ("ab.cd".toList) 2 =
        some chunks ∧
      chunks ≠ [] ∧
      (∀ c ∈ chunks, c.length ≤ 2) ∧
      ∃ k, k ≤ ("ab.cd".toList).length ∧
        (("ab.cd".toList).drop k).length ≤ 2 ∧
        chunks.getLast? = some (pyStrip (("ab.cd".toList).drop k))) :=
  ⟨by decide, C9_amended_chunks_terminate_and_fit ("ab.cd".toList) 2 (by decide)⟩
